import Mathlib

set_option maxRecDepth 8000

/-!
Formal model of the Shopify chat agent in `src/api/chat.js`.  The source
file contains two near-duplicate implementations: a Vercel serverless
handler (`runAssistant` plus the exported request handler) and a standalone
Express server (the `app.post('/chat')` route).  Both bridge an OpenAI
chat-completion model with function calling to Shopify's GraphQL Admin API.
Network effects (the two OpenAI calls and the single Shopify fetch) are
modelled as explicit environment values; everything else is translated
directly from the JavaScript source.
-/

/-- A JSON value, as produced by the JavaScript runtime's `JSON.parse` and
manipulated by both variants of the agent.  Numbers are modelled as exact
rationals; JavaScript floating-point precision plays no role in any
property proved in this development. -/
inductive JValue where
  | str (s : String)
  | num (q : Rat)
  | bool (b : Bool)
  | null
  | arr (elems : List JValue)
  | obj (fields : List (String × JValue))

/-- JavaScript truthiness of a JSON value: the falsy JSON values are
`""`, `0`, `false` and `null`; every array and object is truthy. -/
def truthy : JValue → Bool
  | .str s => s ≠ ""
  | .num q => q ≠ 0
  | .bool b => b
  | .null => false
  | .arr _ => true
  | .obj _ => true

/-- Truthiness of a possibly-absent (`undefined`) JavaScript value. -/
def truthyOpt : Option JValue → Bool
  | none => false
  | some v => truthy v

/-- Property access `v.key` on a parsed JSON value: defined on objects
(first binding wins; parsed bodies in this development have no duplicate
keys), `undefined` on everything else. -/
def jGet (v : JValue) (key : String) : Option JValue :=
  match v with
  | .obj fields => List.lookup key fields
  | _ => none

/-- The character `{`. -/
def lbraceCh : Char := Char.ofNat 123

/-- The character `}`. -/
def rbraceCh : Char := Char.ofNat 125

/-- Numeric value of a hexadecimal digit. -/
def hexVal (c : Char) : Option Nat :=
  if '0' ≤ c ∧ c ≤ '9' then some (c.toNat - 48)
  else if 'a' ≤ c ∧ c ≤ 'f' then some (c.toNat - 87)
  else if 'A' ≤ c ∧ c ≤ 'F' then some (c.toNat - 55)
  else none

/-- JSON whitespace. -/
def isJsonWs (c : Char) : Bool :=
  c = ' ' || c = '\t' || c = '\n' || c = '\r'

/-- Drop leading JSON whitespace. -/
def skipWs : List Char → List Char
  | c :: cs => if isJsonWs c then skipWs cs else c :: cs
  | [] => []

/-- Accumulate a digit string into a natural number. -/
def digitsToNat : List Char → Nat → Nat
  | [], acc => acc
  | c :: cs, acc => digitsToNat cs (acc * 10 + (c.toNat - 48))

/-- Decoding of a single-character JSON string escape. -/
def escMap (c : Char) : Option Char :=
  if c = '"' then some '"'
  else if c = '\\' then some '\\'
  else if c = '/' then some '/'
  else if c = 'b' then some (Char.ofNat 8)
  else if c = 'f' then some (Char.ofNat 12)
  else if c = 'n' then some '\n'
  else if c = 'r' then some '\r'
  else if c = 't' then some '\t'
  else none

/-- Body of a JSON string literal (the opening quote already consumed):
returns the decoded characters and the input remaining after the closing
quote.  Fuelled to keep the recursion structural. -/
def parseStringBody : Nat → List Char → Option (List Char × List Char)
  | 0, _ => none
  | _ + 1, [] => none
  | fuel + 1, c :: cs =>
    if c = '"' then some ([], cs)
    else if c = '\\' then
      match cs with
      | 'u' :: h1 :: h2 :: h3 :: h4 :: cs2 =>
        match hexVal h1, hexVal h2, hexVal h3, hexVal h4 with
        | some a, some b, some c3, some d =>
          match parseStringBody fuel cs2 with
          | some (acc, rest) =>
            some (Char.ofNat (((a * 16 + b) * 16 + c3) * 16 + d) :: acc, rest)
          | none => none
        | _, _, _, _ => none
      | e :: cs2 =>
        match escMap e with
        | some ch =>
          match parseStringBody fuel cs2 with
          | some (acc, rest) => some (ch :: acc, rest)
          | none => none
        | none => none
      | [] => none
    else if c.toNat < 32 then none
    else
      match parseStringBody fuel cs with
      | some (acc, rest) => some (c :: acc, rest)
      | none => none

/-- Fractional part of a JSON number: value, digit count, rest. -/
def parseFrac : List Char → Option (Nat × Nat × List Char)
  | '.' :: rest =>
    let fs := rest.takeWhile Char.isDigit
    let r := rest.dropWhile Char.isDigit
    if fs.isEmpty then none else some (digitsToNat fs 0, fs.length, r)
  | s => some (0, 0, s)

/-- Exponent part of a JSON number: signed exponent and rest. -/
def parseExp : List Char → Option (Int × List Char)
  | c :: rest =>
    if c = 'e' || c = 'E' then
      let signedRest : Int × List Char :=
        match rest with
        | '+' :: r => (1, r)
        | '-' :: r => (-1, r)
        | _ => (1, rest)
      let es := signedRest.2.takeWhile Char.isDigit
      let r2 := signedRest.2.dropWhile Char.isDigit
      if es.isEmpty then none
      else some (signedRest.1 * (digitsToNat es 0 : Int), r2)
    else some (0, c :: rest)
  | [] => some (0, [])

/-- A JSON number literal, starting at a `-` or a digit. -/
def parseNumber (s : List Char) : Option (Rat × List Char) :=
  let signBody : Bool × List Char :=
    match s with
    | '-' :: rest => (true, rest)
    | _ => (false, s)
  let ds := signBody.2.takeWhile Char.isDigit
  let s2 := signBody.2.dropWhile Char.isDigit
  if ds.isEmpty then none
  else if 1 < ds.length ∧ ds.head? = some '0' then none
  else
    match parseFrac s2 with
    | none => none
    | some (fv, fl, s3) =>
      match parseExp s3 with
      | none => none
      | some (e, s4) =>
        let mantissa : Int := (digitsToNat ds 0) * 10 ^ fl + fv
        let signed : Int := if signBody.1 then -mantissa else mantissa
        some ((signed : Rat) * (10 : Rat) ^ (e - (fl : Int)), s4)

mutual

/-- A JSON value, fuelled recursive-descent over the character list.
This models the JavaScript built-in `JSON.parse`, a host primitive used
by both variants of the agent to decode the model's argument strings. -/
def parseValue : Nat → List Char → Option (JValue × List Char)
  | 0, _ => none
  | fuel + 1, s =>
    match skipWs s with
    | [] => none
    | c :: cs =>
      if c = '"' then
        match parseStringBody (fuel + 1) cs with
        | some (content, rest) => some (.str (String.mk content), rest)
        | none => none
      else if c = lbraceCh then
        match skipWs cs with
        | c2 :: cs2 =>
          if c2 = rbraceCh then some (.obj [], cs2)
          else
            match parseMembers fuel (c2 :: cs2) with
            | some (fields, rest) => some (.obj fields, rest)
            | none => none
        | [] => none
      else if c = '[' then
        match skipWs cs with
        | c2 :: cs2 =>
          if c2 = ']' then some (.arr [], cs2)
          else
            match parseElements fuel (c2 :: cs2) with
            | some (elems, rest) => some (.arr elems, rest)
            | none => none
        | [] => none
      else if c = 't' then
        match cs with
        | 'r' :: 'u' :: 'e' :: rest => some (.bool true, rest)
        | _ => none
      else if c = 'f' then
        match cs with
        | 'a' :: 'l' :: 's' :: 'e' :: rest => some (.bool false, rest)
        | _ => none
      else if c = 'n' then
        match cs with
        | 'u' :: 'l' :: 'l' :: rest => some (.null, rest)
        | _ => none
      else if c = '-' || c.isDigit then
        match parseNumber (c :: cs) with
        | some (q, rest) => some (.num q, rest)
        | none => none
      else none

/-- Non-empty member list of a JSON object, including the closing brace. -/
def parseMembers : Nat → List Char → Option (List (String × JValue) × List Char)
  | 0, _ => none
  | fuel + 1, s =>
    match skipWs s with
    | c :: cs =>
      if c = '"' then
        match parseStringBody (fuel + 1) cs with
        | some (key, afterKey) =>
          match skipWs afterKey with
          | ':' :: afterColon =>
            match parseValue fuel afterColon with
            | some (v, afterVal) =>
              match skipWs afterVal with
              | ',' :: afterComma =>
                match parseMembers fuel afterComma with
                | some (fields, rest) => some ((String.mk key, v) :: fields, rest)
                | none => none
              | c3 :: rest =>
                if c3 = rbraceCh then some ([(String.mk key, v)], rest) else none
              | [] => none
            | none => none
          | _ => none
        | none => none
      else none
    | [] => none

/-- Non-empty element list of a JSON array, including the closing bracket. -/
def parseElements : Nat → List Char → Option (List JValue × List Char)
  | 0, _ => none
  | fuel + 1, s =>
    match parseValue fuel s with
    | some (v, afterVal) =>
      match skipWs afterVal with
      | ',' :: afterComma =>
        match parseElements fuel afterComma with
        | some (elems, rest) => some (v :: elems, rest)
        | none => none
      | ']' :: rest => some ([v], rest)
      | _ => none
    | none => none

end

/-- Model of the JavaScript built-in `JSON.parse`: `none` models a thrown
`SyntaxError`.  The fuel `2 * length + 2` dominates the recursion depth,
which consumes at least one character every two recursive steps. -/
def jsonParse (s : String) : Option JValue :=
  match parseValue (2 * s.length + 2) s.toList with
  | some (v, rest) => if (skipWs rest).isEmpty then some v else none
  | none => none

/-- Boolean prefix test on character lists. -/
def chStartsWith : List Char → List Char → Bool
  | [], _ => true
  | _ :: _, [] => false
  | p :: ps, c :: cs => p == c && chStartsWith ps cs

/-- Boolean substring test on character lists. -/
def chHasSubstr (pat : List Char) : List Char → Bool
  | [] => pat.isEmpty
  | c :: cs => chStartsWith pat (c :: cs) || chHasSubstr pat cs

/-- `containsStr s pat` holds when `pat` occurs verbatim inside `s`. -/
def containsStr (s pat : String) : Bool :=
  chHasSubstr pat.toList s.toList

/-- A `shopMoney` / `minVariantPrice` money value: the amount is kept as
the string the commerce API returns, never coerced to a float. -/
structure Money where
  amount : String
  currencyCode : String

/-- An image node from `images(first: 1) { edges { node { url altText } } }`. -/
structure ImageNode where
  url : String
  altText : String

/-- A product node as returned inside `products.edges[i].node`; the
edge wrapper around each node is flattened away in this model, so a
GraphQL connection appears as the plain list of its nodes. -/
structure ProductNode where
  id : String
  title : String
  description : String
  images : List ImageNode
  minVariantPrice : Money

/-- One `trackingInfo` entry of a fulfillment. -/
structure TrackingEntry where
  company : String
  number : String
  url : String

/-- One fulfillment of an order (`fulfillments(first: 1)` returns a plain
list, not an edge wrapper, in the Shopify schema). -/
structure FulfillmentNode where
  status : String
  estimatedDeliveryAt : String
  trackingInfo : List TrackingEntry

/-- One line-item node from `lineItems.edges[i].node`. -/
structure LineItemNode where
  title : String
  quantity : Nat

/-- An order node from `orders.edges[i].node`. -/
structure OrderNode where
  id : String
  name : String
  processedAt : String
  shopMoney : Money
  fulfillments : List FulfillmentNode
  lineItems : List LineItemNode

/-- A customer node from `customers.edges[i].node`. -/
structure CustomerNode where
  id : String
  firstName : Option String
  lastName : Option String
  email : String
  orders : List OrderNode

/-- The `data` payload of a commerce response.  A field is `none` when the
corresponding key (or its `edges` list) is absent from the response, in
which case the JavaScript optional chains (`data?.products?.edges`,
`data?.customers?.edges`) produce `undefined`. -/
structure GraphData where
  products : Option (List ProductNode)
  customers : Option (List CustomerNode)

/-- The parsed JSON body of a commerce response: `{ data, errors }`.
`errors = none` models an absent (or falsy) `errors` key; `some l` models
a present `errors` array, which is truthy in JavaScript even when empty. -/
structure GraphBody where
  data : Option GraphData
  errors : Option (List JValue)

/-- A product record as shaped by both `findProduct` variants. -/
structure ProductRecord where
  id : String
  title : String
  description : String
  image : Option ImageNode
  price : String
  currency : String

/-- A minimal product listing entry, shaped by the serverless `getProducts`. -/
structure ProductListing where
  id : String
  title : String

/-- A product entry as shaped by the standalone `getProducts`. -/
structure ProductInfo where
  id : String
  title : String
  description : String
  price : String
  currency : String

/-- A reshaped fulfillment inside an order record. -/
structure FulfillmentRecord where
  status : String
  estimatedDeliveryAt : String
  tracking : List TrackingEntry

/-- A reshaped line item inside an order record. -/
structure ItemRecord where
  title : String
  quantity : Nat

/-- An order record as shaped by both `getCustomerOrders` variants. -/
structure OrderRecord where
  id : String
  name : String
  processedAt : String
  total : String
  currency : String
  fulfillments : List FulfillmentRecord
  items : List ItemRecord

/-- A customer record as shaped by the standalone `getCustomerOrders`. -/
structure CustomerRecord where
  id : String
  name : String
  email : String
  orders : List OrderRecord

/-- The standalone `findProduct` result wrapper `{ products }`. -/
structure ProductsResult where
  products : List ProductRecord

/-- The standalone `getCustomerOrders` result wrapper `{ customers }`. -/
structure CustomersResult where
  customers : List CustomerRecord

/-- The standalone `getProducts` result wrapper `{ products }`. -/
structure StProductsResult where
  products : List ProductInfo

/-- The error taxonomy of a turn.  `unknownTool` models the standalone
variant's explicit `Function ... is not implemented.` throw and, in the
serverless variant, the `TypeError` raised by invoking the `undefined`
result of the `functionMap[name]` lookup.  `network` models a rejected
`fetch` or a body that is not JSON (`res.json()` throwing). -/
inductive TurnError where
  | argumentParse (raw : String)
  | unknownTool (name : String)
  | commerceQuery (errs : List JValue)
  | network
  | configuration (msg : String)

/-- What the single `fetch` to the commerce endpoint produces, as seen by
`callShopify` after `res.json()`: either a network/parse failure or a
parsed JSON body together with the HTTP status code. -/
inductive FetchOutcome where
  | netFail
  | ok (status : Nat) (body : GraphBody)

/-- The observable trace of one `callShopify` invocation: whether a
network request was attempted, the URL it targeted, and the outcome. -/
structure CallTrace (α : Type) where
  networkAttempted : Bool
  url : Option String
  outcome : Except TurnError α

/-- JavaScript template-literal interpolation of a possibly-undefined
environment variable: `undefined` renders as the text `undefined`. -/
def jsTemplate : Option String → String
  | none => "undefined"
  | some s => s

/-- The commerce endpoint URL built by both variants. -/
def shopifyUrl (store : Option String) : String :=
  "https://" ++ jsTemplate store ++ "/admin/api/2025-07/graphql.json"

/-- JavaScript truthiness of a possibly-undefined environment string. -/
def envTruthy : Option String → Bool
  | none => false
  | some s => s ≠ ""

/-- The serverless `callShopify`: it performs the `fetch` unconditionally
(no credential check), never inspects the HTTP status, throws when the
body's `errors` key is truthy, and returns `json.data` otherwise. -/
def callShopifySv (SHOPIFY_STORE SHOPIFY_TOKEN : Option String)
    (net : FetchOutcome) : CallTrace (Option GraphData) :=
  ⟨true, some (shopifyUrl SHOPIFY_STORE),
    match net with
    | .netFail => .error .network
    | .ok _status body =>
      match body.errors with
      | some errs => .error (.commerceQuery errs)
      | none => .ok body.data⟩

/-- The standalone variant's credential error message, verbatim. -/
def stConfigErrorMsg : String :=
  "Shopify store credentials are not set in environment variables"

/-- The standalone `callShopify`: it throws a configuration error before
any network request when either credential is falsy; otherwise it fetches,
never inspects the HTTP status, throws when `data.errors` is truthy, and
returns the whole parsed body (not just its `data` payload). -/
def callShopifySt (SHOPIFY_STORE SHOPIFY_TOKEN : Option String)
    (net : FetchOutcome) : CallTrace GraphBody :=
  if envTruthy SHOPIFY_STORE && envTruthy SHOPIFY_TOKEN then
    ⟨true, some (shopifyUrl SHOPIFY_STORE),
      match net with
      | .netFail => .error .network
      | .ok _status body =>
        match body.errors with
        | some errs => .error (.commerceQuery errs)
        | none => .ok body⟩
  else ⟨false, none, .error (.configuration stConfigErrorMsg)⟩


/-- The serverless `findProduct` GraphQL document (braces escaped). -/
def gqlFindProduct : String :=
  "\n    query($query: String!) \x7b\n      products(first: 5, query: $query) \x7b\n        edges \x7b\n          node \x7b\n            id\n            title\n            description\n            images(first: 1) \x7b edges \x7b node \x7b url altText \x7d \x7d \x7d\n            priceRange \x7b minVariantPrice \x7b amount currencyCode \x7d \x7d\n          \x7d\n        \x7d\n      \x7d\n    \x7d\n  "

/-- The serverless `getCustomerOrders` GraphQL document (braces escaped). -/
def gqlGetCustomerOrders : String :=
  "\n    query($email: String!) \x7b\n      customers(first: 1, query: $email) \x7b\n        edges \x7b\n          node \x7b\n            id\n            firstName\n            lastName\n            email\n            orders(first: 5) \x7b\n              edges \x7b\n                node \x7b\n                  id\n                  name\n                  processedAt\n                  totalPriceSet \x7b shopMoney \x7b amount currencyCode \x7d \x7d\n                  fulfillments(first: 1) \x7b\n                    status\n                    estimatedDeliveryAt\n                    trackingInfo(first: 5) \x7b company number url \x7d\n                  \x7d\n                  lineItems(first: 5) \x7b\n                    edges \x7b node \x7b title quantity \x7d \x7d\n                  \x7d\n                \x7d\n              \x7d\n            \x7d\n          \x7d\n        \x7d\n      \x7d\n    \x7d\n  "

/-- The serverless `getProducts` GraphQL document (braces escaped). -/
def gqlGetProducts : String :=
  "\n    query \x7b\n      products(first: 5) \x7b\n        edges \x7b node \x7b id title \x7d \x7d\n      \x7d\n    \x7d\n  "

/-- The standalone `findProduct` GraphQL document (braces escaped). -/
def gqlFindProductSt : String :=
  "\n    query($queryString: String!) \x7b\n      products(first: 5, query: $queryString) \x7b\n        edges \x7b\n          node \x7b\n            id\n            title\n            description\n            images(first: 1) \x7b\n              edges \x7b\n                node \x7b\n                  url\n                  altText\n                \x7d\n              \x7d\n            \x7d\n            priceRange \x7b\n              minVariantPrice \x7b\n                amount\n                currencyCode\n              \x7d\n            \x7d\n          \x7d\n        \x7d\n      \x7d\n    \x7d\n  "

/-- The standalone `getCustomerOrders` GraphQL document (braces escaped). -/
def gqlGetCustomerOrdersSt : String :=
  "\n    query($email: String!) \x7b\n      customers(first: 1, query: $email) \x7b\n        edges \x7b\n          node \x7b\n            id\n            firstName\n            lastName\n            email\n            orders(first: 5) \x7b\n              edges \x7b\n                node \x7b\n                  id\n                  name\n                  processedAt\n                  totalPriceSet \x7b\n                    shopMoney \x7b\n                      amount\n                      currencyCode\n                    \x7d\n                  \x7d\n                  fulfillments(first: 1) \x7b\n                    status\n                    estimatedDeliveryAt\n                    trackingInfo(first: 5) \x7b\n                      company\n                      number\n                      url\n                    \x7d\n                  \x7d\n                  lineItems(first: 5) \x7b\n                    edges \x7b\n                      node \x7b\n                        title\n                        quantity\n                      \x7d\n                    \x7d\n                  \x7d\n                \x7d\n              \x7d\n            \x7d\n          \x7d\n        \x7d\n      \x7d\n    \x7d\n  "

/-- The standalone `getProducts` GraphQL document (braces escaped). -/
def gqlGetProductsSt : String :=
  "\n    query \x7b\n      products(first: 5) \x7b\n        edges \x7b\n          node \x7b\n            id\n            title\n            description\n            priceRange \x7b\n              minVariantPrice \x7b\n                amount\n                currencyCode\n              \x7d\n            \x7d\n          \x7d\n        \x7d\n      \x7d\n    \x7d\n  "

/-- The record both `findProduct` variants build from a product node
(`image` is `edges[0]?.node || null`, i.e. the head of the image list). -/
def mkProductRecord (node : ProductNode) : ProductRecord :=
  { id := node.id
    title := node.title
    description := node.description
    image := node.images.head?
    price := node.minVariantPrice.amount
    currency := node.minVariantPrice.currencyCode }

/-- Serverless `findProduct`: maps `data?.products?.edges || []` to a bare
array of product records. -/
def findProduct (data : Option GraphData) : List ProductRecord :=
  ((data.bind GraphData.products).getD []).map mkProductRecord

/-- Standalone `findProduct`: same reshaping from
`result?.data?.products?.edges || []`, wrapped as `{ products }`. -/
def findProductSt (result : GraphBody) : ProductsResult :=
  ⟨((result.data.bind GraphData.products).getD []).map mkProductRecord⟩

/-- Serverless `getProducts`: maps `data?.products?.edges || []` to a bare
array of `{ id, title }` listings. -/
def getProducts (data : Option GraphData) : List ProductListing :=
  ((data.bind GraphData.products).getD []).map (fun node => ⟨node.id, node.title⟩)

/-- Standalone `getProducts`: `result?.data?.products?.edges?.map(...) || []`
wrapped as `{ products }`. -/
def getProductsSt (result : GraphBody) : StProductsResult :=
  ⟨((result.data.bind GraphData.products).getD []).map (fun node =>
    ⟨node.id, node.title, node.description,
     node.minVariantPrice.amount, node.minVariantPrice.currencyCode⟩)⟩

/-- The order record both `getCustomerOrders` variants build from an
order node. -/
def mkOrderRecord (order : OrderNode) : OrderRecord :=
  { id := order.id
    name := order.name
    processedAt := order.processedAt
    total := order.shopMoney.amount
    currency := order.shopMoney.currencyCode
    fulfillments := order.fulfillments.map (fun f =>
      ⟨f.status, f.estimatedDeliveryAt,
       f.trackingInfo.map (fun t => ⟨t.company, t.number, t.url⟩)⟩)
    items := order.lineItems.map (fun li => ⟨li.title, li.quantity⟩) }

/-- Serverless `getCustomerOrders`: reads only
`data?.customers?.edges?.[0]?.node`; if there is no such customer it
returns `[]`, otherwise a bare array of that customer's order records. -/
def getCustomerOrders (data : Option GraphData) : List OrderRecord :=
  match (data.bind GraphData.customers).bind List.head? with
  | none => []
  | some customer => customer.orders.map mkOrderRecord

/-- Standalone `getCustomerOrders`: maps every customer edge of
`result?.data?.customers?.edges || []` to a customer record (name built
as `` `${firstName || ''} ${lastName || ''}`.trim() ``), wrapped as
`{ customers }`. -/
def getCustomerOrdersSt (result : GraphBody) : CustomersResult :=
  ⟨((result.data.bind GraphData.customers).getD []).map (fun node =>
    { id := node.id
      name := ((node.firstName.getD "") ++ " " ++ (node.lastName.getD "")).trim
      email := node.email
      orders := node.orders.map mkOrderRecord })⟩

/-- The three tools of the catalog, as a closed enumeration. -/
inductive ToolName where
  | find_product
  | get_customer_orders
  | get_products

/-- The `functionMap` lookup: a tool name string resolves to a catalog
entry, or to `none` (JavaScript `undefined`) for any other string. -/
def lookupTool (name : String) : Option ToolName :=
  if name = "find_product" then some .find_product
  else if name = "get_customer_orders" then some .get_customer_orders
  else if name = "get_products" then some .get_products
  else none

/-- A serverless tool result: each tool owns its own shape. -/
inductive SvToolResult where
  | products (l : List ProductRecord)
  | orders (l : List OrderRecord)
  | listing (l : List ProductListing)

/-- A standalone tool result: each tool owns its own (wrapped) shape. -/
inductive StToolResult where
  | products (r : ProductsResult)
  | customers (r : CustomersResult)
  | listing (r : StProductsResult)

/-- Dispatch of a resolved serverless tool on the `data` payload the
serverless `callShopify` returned. -/
def dispatchSv : ToolName → Option GraphData → SvToolResult
  | .find_product, d => .products (findProduct d)
  | .get_customer_orders, d => .orders (getCustomerOrders d)
  | .get_products, d => .listing (getProducts d)

/-- Dispatch of a resolved standalone tool on the full body the
standalone `callShopify` returned. -/
def dispatchSt : ToolName → GraphBody → StToolResult
  | .find_product, b => .products (findProductSt b)
  | .get_customer_orders, b => .customers (getCustomerOrdersSt b)
  | .get_products, b => .listing (getProductsSt b)

/-- A model message's `function_call` payload: the nominated tool name
and the raw JSON-encoded argument string (possibly absent). -/
structure FunctionCall where
  name : String
  arguments : Option String

/-- The first model response: `choices[0].message`. -/
structure ModelMessage where
  content : Option String
  function_call : Option FunctionCall

/-- The environment of one turn: what the model and the network would
answer, and the process configuration.  The two model calls and the
single fetch are strictly sequential, so their responses can be fixed up
front. -/
structure TurnEnv where
  first : ModelMessage
  secondContent : Option String
  SHOPIFY_STORE : Option String
  SHOPIFY_TOKEN : Option String
  net : FetchOutcome

/-- The serverless success payload `{ reply, data? }`. -/
structure SvResponse where
  reply : Option String
  data : Option SvToolResult

/-- The standalone success payload `{ reply, data? }`. -/
structure StResponse where
  reply : Option String
  data : Option StToolResult

/-- Outcome of one orchestrated turn: how many model calls and commerce
fetches were issued, and the result or the single error that aborted it. -/
structure TurnOutcome (ρ : Type) where
  modelCalls : Nat
  commerceCalls : Nat
  result : Except TurnError ρ

/-- Serverless argument handling: `args ? JSON.parse(args) : {}` — an
absent or empty argument string silently becomes the empty object and is
never parsed. -/
def svParseArgs (fc : FunctionCall) : Except TurnError JValue :=
  match fc.arguments with
  | none => .ok (.obj [])
  | some s =>
    if s = "" then .ok (.obj [])
    else
      match jsonParse s with
      | some v => .ok v
      | none => .error (.argumentParse s)

/-- The serverless orchestrator `runAssistant`.  The first model call
always happens; on a `function_call` the argument string is handled, the
tool is resolved (`functionMap[name]`, invoking `undefined` throws), the
single commerce fetch runs, and a second model call composes the reply.
The user message itself only routes through the environment. -/
def runAssistant (env : TurnEnv) (message : String) : TurnOutcome SvResponse :=
  match env.first.function_call with
  | none => ⟨1, 0, .ok ⟨env.first.content, none⟩⟩
  | some fc =>
    match svParseArgs fc with
    | .error e => ⟨1, 0, .error e⟩
    | .ok _parsedArgs =>
      match lookupTool fc.name with
      | none => ⟨1, 0, .error (.unknownTool fc.name)⟩
      | some t =>
        match (callShopifySv env.SHOPIFY_STORE env.SHOPIFY_TOKEN env.net).outcome with
        | .error e => ⟨1, 1, .error e⟩
        | .ok d => ⟨2, 1, .ok ⟨env.secondContent, some (dispatchSv t d)⟩⟩

/-- Standalone argument handling: `JSON.parse(args)` inside a `try` whose
`catch` rethrows `Failed to parse function arguments`; an absent argument
string stringifies to `"undefined"`, which does not parse. -/
def stParseArgs (fc : FunctionCall) : Except TurnError JValue :=
  match jsonParse (fc.arguments.getD "undefined") with
  | some v => .ok v
  | none => .error (.argumentParse (fc.arguments.getD "undefined"))

/-- The turn logic inlined in the standalone `app.post('/chat')` route:
first model call, then on a `function_call` the argument parse, the
explicit `if (!fn)` unknown-tool check, the single commerce fetch (behind
the credential check), and the second model call. -/
def stTurn (env : TurnEnv) : TurnOutcome StResponse :=
  match env.first.function_call with
  | none => ⟨1, 0, .ok ⟨env.first.content, none⟩⟩
  | some fc =>
    match stParseArgs fc with
    | .error e => ⟨1, 0, .error e⟩
    | .ok _parsedArgs =>
      match lookupTool fc.name with
      | none => ⟨1, 0, .error (.unknownTool fc.name)⟩
      | some t =>
        let call := callShopifySt env.SHOPIFY_STORE env.SHOPIFY_TOKEN env.net
        match call.outcome with
        | .error e => ⟨1, if call.networkAttempted then 1 else 0, .error e⟩
        | .ok body => ⟨2, 1, .ok ⟨env.secondContent, some (dispatchSt t body)⟩⟩

/-- An HTTP-level response: a success body, a 400/405 rejection issued
before any orchestration, or the 500 produced by the catch-all handler
from the turn's single error. -/
inductive HttpResponse (ρ : Type) where
  | ok (body : ρ)
  | clientError (status : Nat) (message : String)
  | serverError (e : TurnError)

/-- Outcome of one HTTP request: call counts plus the response. -/
structure HandlerOutcome (ρ : Type) where
  modelCalls : Nat
  commerceCalls : Nat
  response : HttpResponse ρ

/-- The `message` field of a request body (`req.body?.message`; for the
serverless `const { message } = req.body || {}` the falsy-body fallback
`{}` yields `undefined` exactly when this does). -/
def messageField (body : Option JValue) : Option JValue :=
  body.bind (fun b => jGet b "message")

/-- The serverless exported handler: rejects non-POST methods with 405,
rejects a `message` that is not a non-empty string with 400 before any
model or commerce call, and otherwise runs `runAssistant`, mapping a
thrown error to a 500. -/
def svHandler (method : String) (body : Option JValue) (env : TurnEnv) :
    HandlerOutcome SvResponse :=
  if method ≠ "POST" then ⟨0, 0, .clientError 405 "Method not allowed"⟩
  else
    match messageField body with
    | some (.str s) =>
      if s = "" then
        ⟨0, 0, .clientError 400 "Request body must include a `message` string."⟩
      else
        let t := runAssistant env s
        match t.result with
        | .ok r => ⟨t.modelCalls, t.commerceCalls, .ok r⟩
        | .error e => ⟨t.modelCalls, t.commerceCalls, .serverError e⟩
    | _ => ⟨0, 0, .clientError 400 "Request body must include a `message` string."⟩

/-- The standalone `app.post('/chat')` route: rejects a falsy
`req.body?.message` with 400 before any model or commerce call (any
truthy value — of any type — passes), and otherwise runs the inlined turn
logic, mapping a thrown error to a 500. -/
def chatHandler (body : Option JValue) (env : TurnEnv) :
    HandlerOutcome StResponse :=
  if truthyOpt (messageField body) then
    let t := stTurn env
    match t.result with
    | .ok r => ⟨t.modelCalls, t.commerceCalls, .ok r⟩
    | .error e => ⟨t.modelCalls, t.commerceCalls, .serverError e⟩
  else ⟨0, 0, .clientError 400 "Request body must include a `message` field."⟩

/-- Encoding of an image node as the JSON the agent would serialize. -/
def encodeImage (i : ImageNode) : JValue :=
  .obj [("url", .str i.url), ("altText", .str i.altText)]

/-- Encoding of the `image` field (`edges[0]?.node || null`). -/
def encodeOptImage : Option ImageNode → JValue
  | none => .null
  | some i => encodeImage i

/-- Encoding of a product record. -/
def encodeProductRecord (p : ProductRecord) : JValue :=
  .obj [("id", .str p.id), ("title", .str p.title),
        ("description", .str p.description), ("image", encodeOptImage p.image),
        ("price", .str p.price), ("currency", .str p.currency)]

/-- Encoding of a tracking entry. -/
def encodeTracking (t : TrackingEntry) : JValue :=
  .obj [("company", .str t.company), ("number", .str t.number),
        ("url", .str t.url)]

/-- Encoding of a reshaped fulfillment. -/
def encodeFulfillmentRecord (f : FulfillmentRecord) : JValue :=
  .obj [("status", .str f.status),
        ("estimatedDeliveryAt", .str f.estimatedDeliveryAt),
        ("tracking", .arr (f.tracking.map encodeTracking))]

/-- Encoding of a reshaped line item. -/
def encodeItemRecord (it : ItemRecord) : JValue :=
  .obj [("title", .str it.title), ("quantity", .num (it.quantity : Rat))]

/-- Encoding of an order record. -/
def encodeOrderRecord (o : OrderRecord) : JValue :=
  .obj [("id", .str o.id), ("name", .str o.name),
        ("processedAt", .str o.processedAt), ("total", .str o.total),
        ("currency", .str o.currency),
        ("fulfillments", .arr (o.fulfillments.map encodeFulfillmentRecord)),
        ("items", .arr (o.items.map encodeItemRecord))]

/-- Encoding of a standalone customer record. -/
def encodeCustomerRecord (c : CustomerRecord) : JValue :=
  .obj [("id", .str c.id), ("name", .str c.name), ("email", .str c.email),
        ("orders", .arr (c.orders.map encodeOrderRecord))]

/-- JSON shape of the serverless `find_product` result: a bare array. -/
def encodeSvFind (l : List ProductRecord) : JValue :=
  .arr (l.map encodeProductRecord)

/-- JSON shape of the standalone `find_product` result: `{ products }`. -/
def encodeStFind (r : ProductsResult) : JValue :=
  .obj [("products", .arr (r.products.map encodeProductRecord))]

/-- JSON shape of the serverless `get_customer_orders` result: a bare
array of orders. -/
def encodeSvOrders (l : List OrderRecord) : JValue :=
  .arr (l.map encodeOrderRecord)

/-- JSON shape of the standalone `get_customer_orders` result:
`{ customers: [...] }`. -/
def encodeStOrders (r : CustomersResult) : JValue :=
  .obj [("customers", .arr (r.customers.map encodeCustomerRecord))]

/-- A sample money value. -/
def sampleMoney : Money := ⟨"19.90", "USD"⟩

/-- A sample image node. -/
def sampleImage : ImageNode := ⟨"https://cdn.example/img1.png", "front"⟩

/-- A sample product node with one image. -/
def sampleProduct1 : ProductNode :=
  ⟨"gid:p1", "Coffee Beans", "dark roast", [sampleImage], sampleMoney⟩

/-- A sample product node with no image. -/
def sampleProduct2 : ProductNode :=
  ⟨"gid:p2", "Coffee Mug", "ceramic", [], ⟨"9.50", "USD"⟩⟩

/-- A sample tracking entry. -/
def sampleTracking : TrackingEntry :=
  ⟨"UPS", "1Z999", "https://track.example/1Z999"⟩

/-- A sample fulfillment node. -/
def sampleFulfillment : FulfillmentNode :=
  ⟨"SUCCESS", "2026-10-20", [sampleTracking]⟩

/-- A sample order node. -/
def sampleOrder : OrderNode :=
  ⟨"gid:o1", "#1001", "2026-10-01", ⟨"29.40", "USD"⟩,
   [sampleFulfillment], [⟨"Coffee Beans", 2⟩]⟩

/-- A sample customer node. -/
def sampleCustomer : CustomerNode :=
  ⟨"gid:c1", some "Ada", some "Lovelace", "ada@example.com", [sampleOrder]⟩

/-- A sample commerce `data` payload. -/
def sampleData : GraphData :=
  ⟨some [sampleProduct1, sampleProduct2], some [sampleCustomer]⟩

/-- A sample successful commerce body. -/
def sampleBody : GraphBody := ⟨some sampleData, none⟩

/-- A commerce body whose customer lookup matched nobody. -/
def emptyCustomersBody : GraphBody := ⟨some ⟨none, some []⟩, none⟩

/-- Whether a turn result is the single error that aborted the turn. -/
def isErrorResult {ρ : Type} : Except TurnError ρ → Bool
  | .error _ => true
  | .ok _ => false

/-- An order node within the caps its query requested: at most 5 line
items (`lineItems(first: 5)`) and at most 5 tracking entries per
fulfillment (`trackingInfo(first: 5)`). -/
def orderNodeCapsOk (o : OrderNode) : Prop :=
  o.lineItems.length ≤ 5 ∧ ∀ f ∈ o.fulfillments, f.trackingInfo.length ≤ 5

/-- A customer node within the caps its query requested: at most 5
orders (`orders(first: 5)`), each within `orderNodeCapsOk`. -/
def customerCapsOk (c : CustomerNode) : Prop :=
  c.orders.length ≤ 5 ∧ ∀ o ∈ c.orders, orderNodeCapsOk o

instance (o : OrderNode) : Decidable (orderNodeCapsOk o) := by
  unfold orderNodeCapsOk
  infer_instance

instance (c : CustomerNode) : Decidable (customerCapsOk c) := by
  unfold customerCapsOk
  infer_instance

/-- The aggregate cap invariant over every list a tool result exposes,
for both variants, on a given commerce body. -/
def resultsCapped (body : GraphBody) : Prop :=
  (findProduct body.data).length ≤ 5 ∧
  (findProductSt body).products.length ≤ 5 ∧
  (getProducts body.data).length ≤ 5 ∧
  (getProductsSt body).products.length ≤ 5 ∧
  (getCustomerOrders body.data).length ≤ 5 ∧
  (∀ o ∈ getCustomerOrders body.data,
     o.items.length ≤ 5 ∧ ∀ f ∈ o.fulfillments, f.tracking.length ≤ 5) ∧
  (∀ c ∈ (getCustomerOrdersSt body).customers,
     c.orders.length ≤ 5 ∧
     ∀ o ∈ c.orders,
       o.items.length ≤ 5 ∧ ∀ f ∈ o.fulfillments, f.tracking.length ≤ 5)

/-- An environment in which the model answers directly with text. -/
def noToolEnv : TurnEnv :=
  ⟨⟨some "Hello! How can I help?", none⟩, none,
   some "shop.myshopify.com", some "shpat-token", .ok 200 sampleBody⟩

/-- An environment in which the model nominates `find_product` with
well-formed arguments and the commerce call succeeds. -/
def okProductsEnv : TurnEnv :=
  ⟨⟨none, some ⟨"find_product", some "\x7b\"query\":\"coffee\"\x7d"⟩⟩,
   some "Here are the coffee products.",
   some "shop.myshopify.com", some "shpat-token", .ok 200 sampleBody⟩

/-- An environment in which the model nominates `get_customer_orders`
and the commerce response matches no customer. -/
def emptyCustomerEnv : TurnEnv :=
  ⟨⟨none, some ⟨"get_customer_orders",
                some "\x7b\"email\":\"nobody@example.com\"\x7d"⟩⟩,
   some "I could not find any orders for that email.",
   some "shop.myshopify.com", some "shpat-token", .ok 200 emptyCustomersBody⟩

/-- A commerce body carrying a top-level `errors` list. -/
def errorsBody : GraphBody :=
  ⟨none, some [.obj [("message", .str "Throttled")]]⟩

/-- An environment in which the commerce call returns an `errors` list. -/
def commerceErrEnv : TurnEnv :=
  ⟨⟨none, some ⟨"find_product", some "\x7b\"query\":\"coffee\"\x7d"⟩⟩,
   some "unused", some "shop.myshopify.com", some "shpat-token",
   .ok 200 errorsBody⟩

/-- An environment in which the model nominates a tool outside the
catalog with well-formed arguments. -/
def unknownToolEnv : TurnEnv :=
  ⟨⟨none, some ⟨"make_coffee", some "\x7b\x7d"⟩⟩, some "unused",
   some "shop.myshopify.com", some "shpat-token", .ok 200 sampleBody⟩

/-- An environment in which the model nominates a tool outside the
catalog with a malformed argument string. -/
def badArgsUnknownEnv : TurnEnv :=
  ⟨⟨none, some ⟨"make_coffee", some "\x7b"⟩⟩, some "unused",
   some "shop.myshopify.com", some "shpat-token", .ok 200 sampleBody⟩

/-- An environment in which the model nominates the known tool
`find_product` with a malformed argument string. -/
def badArgsKnownToolEnv : TurnEnv :=
  ⟨⟨none, some ⟨"find_product", some "\x7b"⟩⟩, some "unused",
   some "shop.myshopify.com", some "shpat-token", .ok 200 sampleBody⟩

/-- An environment in which the model nominates `get_products` with an
empty argument string. -/
def emptyArgsEnv : TurnEnv :=
  ⟨⟨none, some ⟨"get_products", some ""⟩⟩, some "Here are our products.",
   some "shop.myshopify.com", some "shpat-token", .ok 200 sampleBody⟩

/-- Serverless turn shape when the first response carries no tool call. -/
theorem runAssistant_no_tool (env : TurnEnv) (message : String)
    (hfc : env.first.function_call = none) :
    runAssistant env message = ⟨1, 0, .ok ⟨env.first.content, none⟩⟩ := by
  unfold runAssistant
  rw [hfc]

/-- Serverless turn shape when the argument string fails to parse. -/
theorem runAssistant_parse_error (env : TurnEnv) (message : String)
    (fc : FunctionCall) (e : TurnError)
    (hfc : env.first.function_call = some fc)
    (hargs : svParseArgs fc = .error e) :
    runAssistant env message = ⟨1, 0, .error e⟩ := by
  simp only [runAssistant, hfc, hargs]

/-- Serverless turn shape when the nominated tool is not in the catalog. -/
theorem runAssistant_unknown_tool (env : TurnEnv) (message : String)
    (fc : FunctionCall) (v : JValue)
    (hfc : env.first.function_call = some fc)
    (hargs : svParseArgs fc = .ok v)
    (htool : lookupTool fc.name = none) :
    runAssistant env message = ⟨1, 0, .error (.unknownTool fc.name)⟩ := by
  simp only [runAssistant, hfc, hargs, htool]

/-- Serverless turn shape when the commerce call fails. -/
theorem runAssistant_commerce_error (env : TurnEnv) (message : String)
    (fc : FunctionCall) (v : JValue) (t : ToolName) (e : TurnError)
    (hfc : env.first.function_call = some fc)
    (hargs : svParseArgs fc = .ok v)
    (htool : lookupTool fc.name = some t)
    (hcall : (callShopifySv env.SHOPIFY_STORE env.SHOPIFY_TOKEN env.net).outcome
      = .error e) :
    runAssistant env message = ⟨1, 1, .error e⟩ := by
  simp only [runAssistant, hfc, hargs, htool, hcall]

/-- Serverless turn shape on the success path. -/
theorem runAssistant_success (env : TurnEnv) (message : String)
    (fc : FunctionCall) (v : JValue) (t : ToolName) (d : Option GraphData)
    (hfc : env.first.function_call = some fc)
    (hargs : svParseArgs fc = .ok v)
    (htool : lookupTool fc.name = some t)
    (hcall : (callShopifySv env.SHOPIFY_STORE env.SHOPIFY_TOKEN env.net).outcome
      = .ok d) :
    runAssistant env message
      = ⟨2, 1, .ok ⟨env.secondContent, some (dispatchSv t d)⟩⟩ := by
  simp only [runAssistant, hfc, hargs, htool, hcall]

/-- Standalone turn shape when the first response carries no tool call. -/
theorem stTurn_no_tool (env : TurnEnv)
    (hfc : env.first.function_call = none) :
    stTurn env = ⟨1, 0, .ok ⟨env.first.content, none⟩⟩ := by
  unfold stTurn
  rw [hfc]

/-- Standalone turn shape when the argument string fails to parse. -/
theorem stTurn_parse_error (env : TurnEnv)
    (fc : FunctionCall) (e : TurnError)
    (hfc : env.first.function_call = some fc)
    (hargs : stParseArgs fc = .error e) :
    stTurn env = ⟨1, 0, .error e⟩ := by
  simp only [stTurn, hfc, hargs]

/-- Standalone turn shape when the nominated tool is not in the catalog. -/
theorem stTurn_unknown_tool (env : TurnEnv)
    (fc : FunctionCall) (v : JValue)
    (hfc : env.first.function_call = some fc)
    (hargs : stParseArgs fc = .ok v)
    (htool : lookupTool fc.name = none) :
    stTurn env = ⟨1, 0, .error (.unknownTool fc.name)⟩ := by
  simp only [stTurn, hfc, hargs, htool]

/-- Standalone turn shape when the commerce call throws after a fetch. -/
theorem stTurn_commerce_error (env : TurnEnv)
    (fc : FunctionCall) (v : JValue) (t : ToolName) (e : TurnError)
    (hfc : env.first.function_call = some fc)
    (hargs : stParseArgs fc = .ok v)
    (htool : lookupTool fc.name = some t)
    (hcall : (callShopifySt env.SHOPIFY_STORE env.SHOPIFY_TOKEN env.net).outcome
      = .error e) :
    stTurn env
      = ⟨1,
         if (callShopifySt env.SHOPIFY_STORE env.SHOPIFY_TOKEN env.net).networkAttempted
         then 1 else 0,
         .error e⟩ := by
  simp only [stTurn, hfc, hargs, htool, hcall]

/-- Standalone turn shape on the success path. -/
theorem stTurn_success (env : TurnEnv)
    (fc : FunctionCall) (v : JValue) (t : ToolName) (body : GraphBody)
    (hfc : env.first.function_call = some fc)
    (hargs : stParseArgs fc = .ok v)
    (htool : lookupTool fc.name = some t)
    (hcall : (callShopifySt env.SHOPIFY_STORE env.SHOPIFY_TOKEN env.net).outcome
      = .ok body) :
    stTurn env = ⟨2, 1, .ok ⟨env.secondContent, some (dispatchSt t body)⟩⟩ := by
  simp only [stTurn, hfc, hargs, htool, hcall]

/-- A serverless turn attempts at most one commerce fetch. -/
theorem runAssistant_commerce_le_one (env : TurnEnv) (message : String) :
    (runAssistant env message).commerceCalls ≤ 1 := by
  unfold runAssistant
  repeat' split
  all_goals simp

/-- A standalone turn attempts at most one commerce fetch. -/
theorem stTurn_commerce_le_one (env : TurnEnv) :
    (stTurn env).commerceCalls ≤ 1 := by
  unfold stTurn
  dsimp only
  repeat' split
  all_goals simp

/-- A serverless turn issues at most two model calls, and at least one. -/
theorem runAssistant_model_bounds (env : TurnEnv) (message : String) :
    1 ≤ (runAssistant env message).modelCalls ∧
    (runAssistant env message).modelCalls ≤ 2 := by
  unfold runAssistant
  repeat' split
  all_goals simp

/-- A standalone turn issues at most two model calls, and at least one. -/
theorem stTurn_model_bounds (env : TurnEnv) :
    1 ≤ (stTurn env).modelCalls ∧ (stTurn env).modelCalls ≤ 2 := by
  unfold stTurn
  dsimp only
  repeat' split
  all_goals simp

/-- If a serverless turn succeeds with a `data` field, the first model
response nominated a tool. -/
theorem runAssistant_data_implies_tool (env : TurnEnv) (message : String)
    (r : SvResponse)
    (h : (runAssistant env message).result = .ok r)
    (hd : r.data.isSome = true) :
    env.first.function_call ≠ none := by
  intro hnone
  rw [runAssistant_no_tool env message hnone] at h
  have h2 : Except.ok (⟨env.first.content, none⟩ : SvResponse) = Except.ok r := h
  injection h2 with h3
  rw [← h3] at hd
  simp at hd

/-- If a standalone turn succeeds with a `data` field, the first model
response nominated a tool. -/
theorem stTurn_data_implies_tool (env : TurnEnv) (r : StResponse)
    (h : (stTurn env).result = .ok r)
    (hd : r.data.isSome = true) :
    env.first.function_call ≠ none := by
  intro hnone
  rw [stTurn_no_tool env hnone] at h
  have h2 : Except.ok (⟨env.first.content, none⟩ : StResponse) = Except.ok r := h
  injection h2 with h3
  rw [← h3] at hd
  simp at hd

/-- A serverless turn nominating an unknown tool makes no commerce call
and fails, whatever the argument string. -/
theorem runAssistant_unknown_always (env : TurnEnv) (message : String)
    (fc : FunctionCall)
    (hfc : env.first.function_call = some fc)
    (htool : lookupTool fc.name = none) :
    (runAssistant env message).commerceCalls = 0 ∧
    isErrorResult (runAssistant env message).result = true := by
  cases hargs : svParseArgs fc with
  | error e =>
    rw [runAssistant_parse_error env message fc e hfc hargs]
    exact ⟨rfl, rfl⟩
  | ok v =>
    rw [runAssistant_unknown_tool env message fc v hfc hargs htool]
    exact ⟨rfl, rfl⟩

/-- A standalone turn nominating an unknown tool makes no commerce call
and fails, whatever the argument string. -/
theorem stTurn_unknown_always (env : TurnEnv) (fc : FunctionCall)
    (hfc : env.first.function_call = some fc)
    (htool : lookupTool fc.name = none) :
    (stTurn env).commerceCalls = 0 ∧
    isErrorResult (stTurn env).result = true := by
  cases hargs : stParseArgs fc with
  | error e =>
    rw [stTurn_parse_error env fc e hfc hargs]
    exact ⟨rfl, rfl⟩
  | ok v =>
    rw [stTurn_unknown_tool env fc v hfc hargs htool]
    exact ⟨rfl, rfl⟩

/-- C9: the two near-duplicate implementations diverge in ToolResult
field shaping: for the same commerce response body, the serverless
`find_product` returns a bare array of product records while the
standalone variant returns a `{products: array}` wrapper, and the
serverless `get_customer_orders` returns a bare array of orders while the
standalone variant returns `{customers: [...]}`; hence the two variants'
tool results are never equal as JSON values. -/
theorem c9_tool_result_shapes_diverge (body : GraphBody) :
    encodeSvFind (findProduct body.data) ≠ encodeStFind (findProductSt body) ∧
    encodeSvOrders (getCustomerOrders body.data)
      ≠ encodeStOrders (getCustomerOrdersSt body) :=
  ⟨fun h => JValue.noConfusion h, fun h => JValue.noConfusion h⟩

/-- C9 witness: the divergence at a concrete commerce body. -/
theorem c9_tool_result_shapes_diverge_witness :
    encodeSvFind (findProduct sampleBody.data)
      ≠ encodeStFind (findProductSt sampleBody) ∧
    encodeSvOrders (getCustomerOrders sampleBody.data)
      ≠ encodeStOrders (getCustomerOrdersSt sampleBody) :=
  c9_tool_result_shapes_diverge sampleBody

/-- C10: `get_customer_orders` derives its result from at most one
customer record: the serverless variant depends only on the first
customer edge of the response, both queries request
`customers(first: 1)`, and the standalone variant returns at most one
customer record whenever the response honors that cap. -/
theorem c10_single_customer (d₁ d₂ : Option GraphData) (body : GraphBody)
    (hhead : (d₁.bind GraphData.customers).bind List.head?
      = (d₂.bind GraphData.customers).bind List.head?)
    (hlen : ((body.data.bind GraphData.customers).getD []).length ≤ 1) :
    getCustomerOrders d₁ = getCustomerOrders d₂ ∧
    containsStr gqlGetCustomerOrders "customers(first: 1, query:" = true ∧
    containsStr gqlGetCustomerOrdersSt "customers(first: 1, query:" = true ∧
    (getCustomerOrdersSt body).customers.length ≤ 1 := by
  refine ⟨?_, by decide, by decide, ?_⟩
  · unfold getCustomerOrders
    rw [hhead]
  · simpa [getCustomerOrdersSt] using hlen

/-- C10 witness: the single-customer property at a concrete body. -/
theorem c10_single_customer_witness :
    getCustomerOrders sampleBody.data = getCustomerOrders sampleBody.data ∧
    containsStr gqlGetCustomerOrders "customers(first: 1, query:" = true ∧
    containsStr gqlGetCustomerOrdersSt "customers(first: 1, query:" = true ∧
    (getCustomerOrdersSt sampleBody).customers.length ≤ 1 :=
  c10_single_customer sampleBody.data sampleBody.data sampleBody rfl (by decide)

/-- C8 counterexample: the serverless `callShopify` performs no
configuration check — with both credentials missing it still attempts the
network request, targeting the URL with the literal text `undefined`
interpolated, instead of failing fast with a ConfigurationError. -/
theorem c8_counterexample :
    (callShopifySv none none FetchOutcome.netFail).networkAttempted = true ∧
    (callShopifySv none none FetchOutcome.netFail).url
      = some "https://undefined/admin/api/2025-07/graphql.json" :=
  ⟨rfl, rfl⟩

/-- C8 (amended): the standalone `callShopify` fails fast with the
descriptive configuration error before any network request when either
credential is falsy; the serverless `callShopify` performs no such check
and always attempts the fetch against the interpolated URL. -/
theorem c8_missing_credentials_fail_fast
    (store token store2 token2 : Option String) (net net2 : FetchOutcome)
    (hmiss : (envTruthy store && envTruthy token) = false) :
    callShopifySt store token net
      = ⟨false, none, .error (.configuration stConfigErrorMsg)⟩ ∧
    (callShopifySv store2 token2 net2).networkAttempted = true ∧
    (callShopifySv store2 token2 net2).url = some (shopifyUrl store2) := by
  refine ⟨?_, rfl, rfl⟩
  unfold callShopifySt
  rw [hmiss]
  simp

/-- C8 witness: fail-fast at concrete missing credentials. -/
theorem c8_missing_credentials_fail_fast_witness :
    (envTruthy (none : Option String) && envTruthy (some "shpat-token"))
      = false ∧
    (callShopifySt none (some "shpat-token") FetchOutcome.netFail
      = ⟨false, none, .error (.configuration stConfigErrorMsg)⟩ ∧
    (callShopifySv (some "shop.myshopify.com") (some "shpat-token")
        FetchOutcome.netFail).networkAttempted = true ∧
    (callShopifySv (some "shop.myshopify.com") (some "shpat-token")
        FetchOutcome.netFail).url
      = some (shopifyUrl (some "shop.myshopify.com"))) :=
  ⟨by decide,
   c8_missing_credentials_fail_fast none (some "shpat-token")
     (some "shop.myshopify.com") (some "shpat-token")
     FetchOutcome.netFail FetchOutcome.netFail (by decide)⟩

/-- The order records built from a capped customer node satisfy every
list bound a tool result exposes. -/
theorem mkOrderRecord_caps (c : CustomerNode) (hcaps : customerCapsOk c) :
    (c.orders.map mkOrderRecord).length ≤ 5 ∧
    ∀ o ∈ c.orders.map mkOrderRecord,
      o.items.length ≤ 5 ∧ ∀ f ∈ o.fulfillments, f.tracking.length ≤ 5 := by
  constructor
  · simpa using hcaps.1
  · intro o ho
    obtain ⟨o', ho', rfl⟩ := List.mem_map.mp ho
    have hcap := hcaps.2 o' ho'
    constructor
    · simpa [mkOrderRecord] using hcap.1
    · intro f hf
      simp only [mkOrderRecord, List.mem_map] at hf
      obtain ⟨f', hf', rfl⟩ := hf
      simpa using hcap.2 f' hf'

/-- C5: the results of the three tools never exceed the fixed cap of 5,
in either variant, whenever the commerce response honors the caps the
query requested; the ceiling is the literal `first: 5` baked into each
query document, not a configurable value. -/
theorem c5_results_capped_at_five (body : GraphBody)
    (hp : ((body.data.bind GraphData.products).getD []).length ≤ 5)
    (hc : ∀ c ∈ (body.data.bind GraphData.customers).getD [], customerCapsOk c) :
    resultsCapped body ∧
    containsStr gqlFindProduct "products(first: 5, query:" = true ∧
    containsStr gqlFindProductSt "products(first: 5, query:" = true ∧
    containsStr gqlGetProducts "products(first: 5)" = true ∧
    containsStr gqlGetProductsSt "products(first: 5)" = true ∧
    containsStr gqlGetCustomerOrders "orders(first: 5)" = true ∧
    containsStr gqlGetCustomerOrders "lineItems(first: 5)" = true ∧
    containsStr gqlGetCustomerOrders "trackingInfo(first: 5)" = true ∧
    containsStr gqlGetCustomerOrdersSt "orders(first: 5)" = true ∧
    containsStr gqlGetCustomerOrdersSt "lineItems(first: 5)" = true ∧
    containsStr gqlGetCustomerOrdersSt "trackingInfo(first: 5)" = true := by
  refine ⟨?_, by decide, by decide, by decide, by decide, by decide,
    by decide, by decide, by decide, by decide, by decide⟩
  have hsv : (getCustomerOrders body.data).length ≤ 5 ∧
      ∀ o ∈ getCustomerOrders body.data,
        o.items.length ≤ 5 ∧ ∀ f ∈ o.fulfillments, f.tracking.length ≤ 5 := by
    rcases hh : (body.data.bind GraphData.customers).bind List.head? with _ | c
    · unfold getCustomerOrders
      rw [hh]
      simp
    · have hmem : c ∈ (body.data.bind GraphData.customers).getD [] := by
        rcases hb : body.data.bind GraphData.customers with _ | cs
        · rw [hb] at hh
          simp at hh
        · rw [hb] at hh
          simp only [Option.some_bind] at hh
          simp only [Option.getD_some]
          exact List.mem_of_mem_head? (Option.mem_def.mpr hh)
      unfold getCustomerOrders
      rw [hh]
      exact mkOrderRecord_caps c (hc c hmem)
  refine ⟨?_, ?_, ?_, ?_, hsv.1, hsv.2, ?_⟩
  · simpa [findProduct] using hp
  · simpa [findProductSt] using hp
  · simpa [getProducts] using hp
  · simpa [getProductsSt] using hp
  · intro c hcm
    simp only [getCustomerOrdersSt, List.mem_map] at hcm
    obtain ⟨node, hnode, rfl⟩ := hcm
    exact mkOrderRecord_caps node (hc node hnode)

/-- C5 witness: the cap invariant at a concrete capped body. -/
theorem c5_results_capped_at_five_witness :
    ((sampleBody.data.bind GraphData.products).getD []).length ≤ 5 ∧
    (∀ c ∈ (sampleBody.data.bind GraphData.customers).getD [],
       customerCapsOk c) ∧
    (resultsCapped sampleBody ∧
     containsStr gqlFindProduct "products(first: 5, query:" = true ∧
     containsStr gqlFindProductSt "products(first: 5, query:" = true ∧
     containsStr gqlGetProducts "products(first: 5)" = true ∧
     containsStr gqlGetProductsSt "products(first: 5)" = true ∧
     containsStr gqlGetCustomerOrders "orders(first: 5)" = true ∧
     containsStr gqlGetCustomerOrders "lineItems(first: 5)" = true ∧
     containsStr gqlGetCustomerOrders "trackingInfo(first: 5)" = true ∧
     containsStr gqlGetCustomerOrdersSt "orders(first: 5)" = true ∧
     containsStr gqlGetCustomerOrdersSt "lineItems(first: 5)" = true ∧
     containsStr gqlGetCustomerOrdersSt "trackingInfo(first: 5)" = true) :=
  ⟨by decide, by decide,
   c5_results_capped_at_five sampleBody (by decide) (by decide)⟩

/-- C6: a `get_customer_orders` call whose commerce response matches no
customer returns an empty sequence — `[]` in the serverless variant,
`{customers: []}` in the standalone variant — and the turn completes
normally with a model-composed reply and the empty data; absence of a
match is never an error. -/
theorem c6_no_customer_is_not_error
    (body : GraphBody) (env env2 : TurnEnv) (message : String)
    (fc fc2 : FunctionCall) (v v2 : JValue) (status status2 : Nat)
    (hempty : (body.data.bind GraphData.customers).getD [] = [])
    (hfc : env.first.function_call = some fc)
    (hname : fc.name = "get_customer_orders")
    (hargs : svParseArgs fc = .ok v)
    (hnet : env.net = .ok status body)
    (herr : body.errors = none)
    (h2fc : env2.first.function_call = some fc2)
    (h2name : fc2.name = "get_customer_orders")
    (h2args : stParseArgs fc2 = .ok v2)
    (h2cred : (envTruthy env2.SHOPIFY_STORE && envTruthy env2.SHOPIFY_TOKEN)
      = true)
    (h2net : env2.net = .ok status2 body) :
    getCustomerOrders body.data = [] ∧
    getCustomerOrdersSt body = ⟨[]⟩ ∧
    runAssistant env message
      = ⟨2, 1, .ok ⟨env.secondContent, some (.orders [])⟩⟩ ∧
    stTurn env2 = ⟨2, 1, .ok ⟨env2.secondContent, some (.customers ⟨[]⟩)⟩⟩ := by
  have hA : getCustomerOrders body.data = [] := by
    rcases hb : body.data.bind GraphData.customers with _ | cs
    · unfold getCustomerOrders
      rw [hb]
      rfl
    · have hcs : cs = [] := by
        have h := hempty
        rw [hb] at h
        simpa using h
      unfold getCustomerOrders
      rw [hb, hcs]
      rfl
  have hB : getCustomerOrdersSt body = ⟨[]⟩ := by
    unfold getCustomerOrdersSt
    rw [hempty]
    rfl
  have htool : lookupTool fc.name = some .get_customer_orders := by
    rw [hname]
    rfl
  have htool2 : lookupTool fc2.name = some .get_customer_orders := by
    rw [h2name]
    rfl
  have hcall : (callShopifySv env.SHOPIFY_STORE env.SHOPIFY_TOKEN env.net).outcome
      = .ok body.data := by
    simp only [callShopifySv, hnet, herr]
  have hcall2 : (callShopifySt env2.SHOPIFY_STORE env2.SHOPIFY_TOKEN env2.net).outcome
      = .ok body := by
    simp only [callShopifySt, h2cred, h2net, herr, if_true]
  refine ⟨hA, hB, ?_, ?_⟩
  · rw [runAssistant_success env message fc v .get_customer_orders body.data
      hfc hargs htool hcall]
    simp only [dispatchSv, hA]
  · rw [stTurn_success env2 fc2 v2 .get_customer_orders body
      h2fc h2args htool2 hcall2]
    simp only [dispatchSt, hB]

/-- C6 witness: the empty-customer turn at concrete inputs. -/
theorem c6_no_customer_is_not_error_witness :
    (emptyCustomersBody.data.bind GraphData.customers).getD [] = [] ∧
    (getCustomerOrders emptyCustomersBody.data = [] ∧
     getCustomerOrdersSt emptyCustomersBody = ⟨[]⟩ ∧
     runAssistant emptyCustomerEnv "where is my order?"
       = ⟨2, 1, .ok ⟨emptyCustomerEnv.secondContent, some (.orders [])⟩⟩ ∧
     stTurn emptyCustomerEnv
       = ⟨2, 1, .ok ⟨emptyCustomerEnv.secondContent,
                     some (.customers ⟨[]⟩)⟩⟩) :=
  ⟨rfl,
   c6_no_customer_is_not_error emptyCustomersBody emptyCustomerEnv
     emptyCustomerEnv "where is my order?"
     ⟨"get_customer_orders", some "\x7b\"email\":\"nobody@example.com\"\x7d"⟩
     ⟨"get_customer_orders", some "\x7b\"email\":\"nobody@example.com\"\x7d"⟩
     (.obj [("email", .str "nobody@example.com")])
     (.obj [("email", .str "nobody@example.com")])
     200 200 rfl rfl rfl rfl rfl rfl rfl rfl rfl (by decide) rfl⟩

/-- C7 counterexample: a request whose `message` is the number `42` lacks
a non-empty-string message, yet the standalone route accepts it and
invokes the model (one model call, a 200 reply) instead of rejecting it;
only the serverless handler rejects it with a 400. -/
theorem c7_counterexample :
    chatHandler (some (.obj [("message", .num 42)])) noToolEnv
      = ⟨1, 0, .ok ⟨some "Hello! How can I help?", none⟩⟩ ∧
    svHandler "POST" (some (.obj [("message", .num 42)])) noToolEnv
      = ⟨0, 0, .clientError 400
          "Request body must include a `message` string."⟩ :=
  ⟨rfl, rfl⟩

/-- C7 (amended): the serverless handler rejects, before any model or
commerce call, every POST whose `message` field is not a non-empty
string; the standalone route rejects only a falsy `message` (absent,
empty string, `0`, `false`, `null`) — any truthy value of any type
passes validation and reaches the model. -/
theorem c7_message_validation
    (method : String) (body bodyF bodyT : Option JValue)
    (env envF envT : TurnEnv)
    (hmethod : method = "POST")
    (hbad : ∀ s : String, messageField body = some (.str s) → s = "")
    (hfalsy : truthyOpt (messageField bodyF) = false)
    (htruthy : truthyOpt (messageField bodyT) = true) :
    svHandler method body env
      = ⟨0, 0, .clientError 400
          "Request body must include a `message` string."⟩ ∧
    chatHandler bodyF envF
      = ⟨0, 0, .clientError 400
          "Request body must include a `message` field."⟩ ∧
    1 ≤ (chatHandler bodyT envT).modelCalls := by
  refine ⟨?_, ?_, ?_⟩
  · subst hmethod
    unfold svHandler
    rw [if_neg (by simp)]
    rcases hm : messageField body with _ | v
    · rfl
    · cases v with
      | str s =>
        have hs := hbad s hm
        subst hs
        rfl
      | num q => rfl
      | bool b => rfl
      | null => rfl
      | arr l => rfl
      | obj fs => rfl
  · simp [chatHandler, hfalsy]
  · unfold chatHandler
    rw [htruthy]
    simp only [if_true]
    split <;> simpa using (stTurn_model_bounds envT).1

/-- C7 witness: validation outcomes at concrete request bodies. -/
theorem c7_message_validation_witness :
    truthyOpt (messageField (some (.obj [("message", .str "")]))) = false ∧
    truthyOpt (messageField (some (.obj [("message", .num 42)]))) = true ∧
    (svHandler "POST" (some (.obj [("message", .str "")])) noToolEnv
       = ⟨0, 0, .clientError 400
           "Request body must include a `message` string."⟩ ∧
     chatHandler (some (.obj [("message", .str "")])) noToolEnv
       = ⟨0, 0, .clientError 400
           "Request body must include a `message` field."⟩ ∧
     1 ≤ (chatHandler (some (.obj [("message", .num 42)])) noToolEnv).modelCalls) :=
  ⟨rfl, rfl,
   c7_message_validation "POST"
     (some (.obj [("message", .str "")]))
     (some (.obj [("message", .str "")]))
     (some (.obj [("message", .num 42)]))
     noToolEnv noToolEnv noToolEnv rfl
     (fun s hs => by
       injection hs with h
       injection h with h2
       exact h2.symm)
     rfl rfl⟩

/-- C1 counterexample: the model nominates the known tool `find_product`
but with the malformed argument string `{`; the turn issues one model
call, zero commerce calls, and fails — not the claimed two model calls,
one commerce call and `{reply, data}`. -/
theorem c1_counterexample :
    lookupTool "find_product" = some ToolName.find_product ∧
    runAssistant badArgsKnownToolEnv "show me coffee"
      = ⟨1, 0, .error (.argumentParse "\x7b")⟩ ∧
    stTurn badArgsKnownToolEnv = ⟨1, 0, .error (.argumentParse "\x7b")⟩ :=
  ⟨rfl, rfl, rfl⟩

/-- C1 (amended): a turn with no tool invocation issues exactly one model
call and returns `{reply}` with no data; a turn nominating a known tool
whose argument string is handled successfully and whose commerce call
succeeds issues exactly two model calls and exactly one commerce call and
returns `{reply, data}` with the tool's result; a successful response
carries data only if a tool was nominated; and at most one commerce call
is ever attempted per turn. -/
theorem c1_turn_protocol
    (envA envB envD envE : TurnEnv) (message : String)
    (fcB : FunctionCall) (vB : JValue) (tB : ToolName)
    (statusB : Nat) (bodyB : GraphBody)
    (fcD : FunctionCall) (vD : JValue) (tD : ToolName)
    (statusD : Nat) (bodyD : GraphBody) (rE : SvResponse)
    (hA : envA.first.function_call = none)
    (hBfc : envB.first.function_call = some fcB)
    (hBargs : svParseArgs fcB = .ok vB)
    (hBtool : lookupTool fcB.name = some tB)
    (hBnet : envB.net = .ok statusB bodyB)
    (hBerr : bodyB.errors = none)
    (hDfc : envD.first.function_call = some fcD)
    (hDargs : stParseArgs fcD = .ok vD)
    (hDtool : lookupTool fcD.name = some tD)
    (hDcred : (envTruthy envD.SHOPIFY_STORE && envTruthy envD.SHOPIFY_TOKEN)
      = true)
    (hDnet : envD.net = .ok statusD bodyD)
    (hDerr : bodyD.errors = none)
    (hEr : (runAssistant envE message).result = .ok rE)
    (hEd : rE.data.isSome = true) :
    runAssistant envA message = ⟨1, 0, .ok ⟨envA.first.content, none⟩⟩ ∧
    stTurn envA = ⟨1, 0, .ok ⟨envA.first.content, none⟩⟩ ∧
    runAssistant envB message
      = ⟨2, 1, .ok ⟨envB.secondContent, some (dispatchSv tB bodyB.data)⟩⟩ ∧
    stTurn envD = ⟨2, 1, .ok ⟨envD.secondContent, some (dispatchSt tD bodyD)⟩⟩ ∧
    envE.first.function_call ≠ none ∧
    (runAssistant envE message).commerceCalls ≤ 1 ∧
    (stTurn envE).commerceCalls ≤ 1 := by
  refine ⟨runAssistant_no_tool envA message hA, stTurn_no_tool envA hA, ?_, ?_,
    runAssistant_data_implies_tool envE message rE hEr hEd,
    runAssistant_commerce_le_one envE message, stTurn_commerce_le_one envE⟩
  · have hcall : (callShopifySv envB.SHOPIFY_STORE envB.SHOPIFY_TOKEN
        envB.net).outcome = .ok bodyB.data := by
      simp only [callShopifySv, hBnet, hBerr]
    exact runAssistant_success envB message fcB vB tB bodyB.data
      hBfc hBargs hBtool hcall
  · have hcall : (callShopifySt envD.SHOPIFY_STORE envD.SHOPIFY_TOKEN
        envD.net).outcome = .ok bodyD := by
      simp only [callShopifySt, hDcred, hDnet, hDerr, if_true]
    exact stTurn_success envD fcD vD tD bodyD hDfc hDargs hDtool hcall

/-- C1 witness: both branches of the protocol at concrete environments. -/
theorem c1_turn_protocol_witness :
    svParseArgs ⟨"find_product", some "\x7b\"query\":\"coffee\"\x7d"⟩
      = .ok (.obj [("query", .str "coffee")]) ∧
    (runAssistant noToolEnv "hello"
       = ⟨1, 0, .ok ⟨noToolEnv.first.content, none⟩⟩ ∧
     stTurn noToolEnv = ⟨1, 0, .ok ⟨noToolEnv.first.content, none⟩⟩ ∧
     runAssistant okProductsEnv "hello"
       = ⟨2, 1, .ok ⟨okProductsEnv.secondContent,
                     some (dispatchSv .find_product sampleBody.data)⟩⟩ ∧
     stTurn okProductsEnv
       = ⟨2, 1, .ok ⟨okProductsEnv.secondContent,
                     some (dispatchSt .find_product sampleBody)⟩⟩ ∧
     okProductsEnv.first.function_call ≠ none ∧
     (runAssistant okProductsEnv "hello").commerceCalls ≤ 1 ∧
     (stTurn okProductsEnv).commerceCalls ≤ 1) :=
  ⟨rfl,
   c1_turn_protocol noToolEnv okProductsEnv okProductsEnv okProductsEnv "hello"
     ⟨"find_product", some "\x7b\"query\":\"coffee\"\x7d"⟩
     (.obj [("query", .str "coffee")]) .find_product 200 sampleBody
     ⟨"find_product", some "\x7b\"query\":\"coffee\"\x7d"⟩
     (.obj [("query", .str "coffee")]) .find_product 200 sampleBody
     ⟨okProductsEnv.secondContent, some (.products (findProduct sampleBody.data))⟩
     rfl rfl rfl rfl rfl rfl rfl rfl rfl (by decide) rfl rfl rfl rfl⟩

/-- C2 counterexample: the model nominates the unknown tool `make_coffee`
with the malformed argument string `{`; in both variants the turn fails
with an ArgumentParseError — not the claimed UnknownTool error — because
argument parsing precedes the tool lookup (no commerce call either way). -/
theorem c2_counterexample :
    lookupTool "make_coffee" = none ∧
    runAssistant badArgsUnknownEnv "make me coffee"
      = ⟨1, 0, .error (.argumentParse "\x7b")⟩ ∧
    stTurn badArgsUnknownEnv = ⟨1, 0, .error (.argumentParse "\x7b")⟩ :=
  ⟨rfl, rfl, rfl⟩

/-- C2 (amended): a turn nominating a tool absent from the catalog always
fails before any commerce call; the failure is the UnknownTool error when
the argument string is handled successfully, and the serverless handler
surfaces it as the single top-level 500 failure; when the arguments are
also malformed, the ArgumentParseError takes precedence. -/
theorem c2_unknown_tool_fails
    (env env2 env3 : TurnEnv) (message s : String)
    (body : Option JValue)
    (fc fc2 fc3 : FunctionCall) (v v2 : JValue)
    (hfc : env.first.function_call = some fc)
    (htool : lookupTool fc.name = none)
    (hargs : svParseArgs fc = .ok v)
    (h2fc : env2.first.function_call = some fc2)
    (h2tool : lookupTool fc2.name = none)
    (h2args : stParseArgs fc2 = .ok v2)
    (h3fc : env3.first.function_call = some fc3)
    (h3tool : lookupTool fc3.name = none)
    (hmsg : messageField body = some (.str s))
    (hs : s ≠ "") :
    runAssistant env message = ⟨1, 0, .error (.unknownTool fc.name)⟩ ∧
    stTurn env2 = ⟨1, 0, .error (.unknownTool fc2.name)⟩ ∧
    (runAssistant env3 message).commerceCalls = 0 ∧
    isErrorResult (runAssistant env3 message).result = true ∧
    (stTurn env3).commerceCalls = 0 ∧
    isErrorResult (stTurn env3).result = true ∧
    svHandler "POST" body env
      = ⟨1, 0, .serverError (.unknownTool fc.name)⟩ := by
  have hC := runAssistant_unknown_always env3 message fc3 h3fc h3tool
  have hD := stTurn_unknown_always env3 fc3 h3fc h3tool
  refine ⟨runAssistant_unknown_tool env message fc v hfc hargs htool,
    stTurn_unknown_tool env2 fc2 v2 h2fc h2args h2tool,
    hC.1, hC.2, hD.1, hD.2, ?_⟩
  unfold svHandler
  rw [if_neg (by simp), hmsg]
  dsimp only
  rw [if_neg hs, runAssistant_unknown_tool env s fc v hfc hargs htool]

/-- C2 witness: the unknown-tool failure at concrete environments. -/
theorem c2_unknown_tool_fails_witness :
    lookupTool "make_coffee" = none ∧
    (runAssistant unknownToolEnv "make me coffee"
       = ⟨1, 0, .error (.unknownTool "make_coffee")⟩ ∧
     stTurn unknownToolEnv = ⟨1, 0, .error (.unknownTool "make_coffee")⟩ ∧
     (runAssistant badArgsUnknownEnv "make me coffee").commerceCalls = 0 ∧
     isErrorResult (runAssistant badArgsUnknownEnv "make me coffee").result
       = true ∧
     (stTurn badArgsUnknownEnv).commerceCalls = 0 ∧
     isErrorResult (stTurn badArgsUnknownEnv).result = true ∧
     svHandler "POST" (some (.obj [("message", .str "make me coffee")]))
         unknownToolEnv
       = ⟨1, 0, .serverError (.unknownTool "make_coffee")⟩) :=
  ⟨rfl,
   c2_unknown_tool_fails unknownToolEnv unknownToolEnv badArgsUnknownEnv
     "make me coffee" "make me coffee"
     (some (.obj [("message", .str "make me coffee")]))
     ⟨"make_coffee", some "\x7b\x7d"⟩ ⟨"make_coffee", some "\x7b\x7d"⟩
     ⟨"make_coffee", some "\x7b"⟩ (.obj []) (.obj [])
     rfl rfl rfl rfl rfl rfl rfl rfl rfl (by decide)⟩

/-- C3 counterexample: a non-2xx response (HTTP 500) whose JSON body
carries no `errors` list does not fail: the serverless `callShopify`
returns the (absent) data payload and the standalone `callShopify`
returns the whole parsed body — the status code is never inspected, and
the standalone success value is the full body, not the data payload. -/
theorem c3_counterexample :
    callShopifySv (some "shop.myshopify.com") (some "shpat-token")
        (.ok 500 ⟨none, none⟩)
      = ⟨true, some (shopifyUrl (some "shop.myshopify.com")), .ok none⟩ ∧
    callShopifySt (some "shop.myshopify.com") (some "shpat-token")
        (.ok 500 sampleBody)
      = ⟨true, some (shopifyUrl (some "shop.myshopify.com")),
         .ok sampleBody⟩ :=
  ⟨rfl, rfl⟩

/-- C3 (amended): when the commerce body carries a top-level `errors`
list the call fails with a CommerceQueryError carrying that list
verbatim, the error propagates uncaught, the turn fails and no second
model call is made; a network failure propagates likewise; only one fetch
is ever attempted; the HTTP status is never inspected, so an errors-free
body succeeds whatever the status — the serverless variant then returns
the body's data payload and the standalone variant the whole body. -/
theorem c3_commerce_error_handling
    (store token : Option String) (status status2 : Nat)
    (body body2 : GraphBody) (errs : List JValue)
    (env : TurnEnv) (message : String)
    (fc : FunctionCall) (v : JValue) (t : ToolName)
    (herrs : body.errors = some errs)
    (hok : body2.errors = none)
    (hcred : (envTruthy store && envTruthy token) = true)
    (hfc : env.first.function_call = some fc)
    (hargs : svParseArgs fc = .ok v)
    (htool : lookupTool fc.name = some t)
    (hnet : env.net = .ok status body) :
    (callShopifySv store token (.ok status body)).outcome
      = .error (.commerceQuery errs) ∧
    (callShopifySt store token (.ok status body)).outcome
      = .error (.commerceQuery errs) ∧
    (callShopifySv store token .netFail).outcome = .error .network ∧
    (callShopifySt store token .netFail).outcome = .error .network ∧
    (callShopifySv store token (.ok status2 body2)).outcome = .ok body2.data ∧
    (callShopifySt store token (.ok status2 body2)).outcome = .ok body2 ∧
    runAssistant env message = ⟨1, 1, .error (.commerceQuery errs)⟩ ∧
    (runAssistant env message).commerceCalls ≤ 1 := by
  refine ⟨by simp [callShopifySv, herrs], by simp [callShopifySt, hcred, herrs],
    rfl, by simp [callShopifySt, hcred], by simp [callShopifySv, hok],
    by simp [callShopifySt, hcred, hok], ?_,
    runAssistant_commerce_le_one env message⟩
  have hcall : (callShopifySv env.SHOPIFY_STORE env.SHOPIFY_TOKEN
      env.net).outcome = .error (.commerceQuery errs) := by
    simp [callShopifySv, hnet, herrs]
  exact runAssistant_commerce_error env message fc v t _ hfc hargs htool hcall

/-- C3 witness: error propagation at concrete inputs. -/
theorem c3_commerce_error_handling_witness :
    errorsBody.errors = some [.obj [("message", .str "Throttled")]] ∧
    ((callShopifySv (some "shop.myshopify.com") (some "shpat-token")
        (.ok 200 errorsBody)).outcome
      = .error (.commerceQuery [.obj [("message", .str "Throttled")]]) ∧
    (callShopifySt (some "shop.myshopify.com") (some "shpat-token")
        (.ok 200 errorsBody)).outcome
      = .error (.commerceQuery [.obj [("message", .str "Throttled")]]) ∧
    (callShopifySv (some "shop.myshopify.com") (some "shpat-token")
        .netFail).outcome = .error .network ∧
    (callShopifySt (some "shop.myshopify.com") (some "shpat-token")
        .netFail).outcome = .error .network ∧
    (callShopifySv (some "shop.myshopify.com") (some "shpat-token")
        (.ok 500 sampleBody)).outcome = .ok sampleBody.data ∧
    (callShopifySt (some "shop.myshopify.com") (some "shpat-token")
        (.ok 500 sampleBody)).outcome = .ok sampleBody ∧
    runAssistant commerceErrEnv "show me coffee"
      = ⟨1, 1, .error (.commerceQuery
          [.obj [("message", .str "Throttled")]])⟩ ∧
    (runAssistant commerceErrEnv "show me coffee").commerceCalls ≤ 1) :=
  ⟨rfl,
   c3_commerce_error_handling (some "shop.myshopify.com") (some "shpat-token")
     200 500 errorsBody sampleBody [.obj [("message", .str "Throttled")]]
     commerceErrEnv "show me coffee"
     ⟨"find_product", some "\x7b\"query\":\"coffee\"\x7d"⟩
     (.obj [("query", .str "coffee")]) .find_product
     rfl rfl (by decide) rfl rfl rfl rfl⟩

/-- C4 counterexample: the empty argument string is not valid JSON, yet
the serverless turn does not fail — `args ? JSON.parse(args) : {}`
silently turns it into the empty object and the tool executes (two model
calls, one commerce call, a success with data). -/
theorem c4_counterexample :
    jsonParse "" = none ∧
    runAssistant emptyArgsEnv "list products"
      = ⟨2, 1, .ok ⟨some "Here are our products.",
                    some (.listing (getProducts sampleBody.data))⟩⟩ :=
  ⟨rfl, rfl⟩

/-- C4 (amended): a tool invocation whose argument string is not valid
JSON fails with an ArgumentParseError before any tool executes (zero
commerce calls, no partial results) — in the serverless variant for every
non-empty invalid string, in the standalone variant for every invalid
string including the empty one; exception: the serverless variant treats
an empty argument string as the empty object and proceeds. -/
theorem c4_argument_parse_fails
    (env env2 : TurnEnv) (message s : String)
    (fc fc2 fc3 : FunctionCall)
    (hfc : env.first.function_call = some fc)
    (hs : fc.arguments = some s)
    (hne : s ≠ "")
    (hbad : jsonParse s = none)
    (h2fc : env2.first.function_call = some fc2)
    (h2bad : jsonParse (fc2.arguments.getD "undefined") = none)
    (h3 : fc3.arguments = some "") :
    runAssistant env message = ⟨1, 0, .error (.argumentParse s)⟩ ∧
    stTurn env2
      = ⟨1, 0, .error (.argumentParse (fc2.arguments.getD "undefined"))⟩ ∧
    svParseArgs fc3 = .ok (.obj []) := by
  have hsv : svParseArgs fc = .error (.argumentParse s) := by
    unfold svParseArgs
    rw [hs]
    dsimp only
    rw [if_neg hne, hbad]
  have hst : stParseArgs fc2
      = .error (.argumentParse (fc2.arguments.getD "undefined")) := by
    unfold stParseArgs
    rw [h2bad]
  refine ⟨runAssistant_parse_error env message fc _ hfc hsv,
    stTurn_parse_error env2 fc2 _ h2fc hst, ?_⟩
  unfold svParseArgs
  rw [h3]
  dsimp only
  rw [if_pos rfl]

/-- C4 witness: argument-parse outcomes at concrete invocations. -/
theorem c4_argument_parse_fails_witness :
    jsonParse "\x7b" = none ∧
    jsonParse "" = none ∧
    (runAssistant badArgsKnownToolEnv "show me coffee"
       = ⟨1, 0, .error (.argumentParse "\x7b")⟩ ∧
     stTurn emptyArgsEnv = ⟨1, 0, .error (.argumentParse "")⟩ ∧
     svParseArgs ⟨"get_products", some ""⟩ = .ok (.obj [])) :=
  ⟨rfl, rfl,
   c4_argument_parse_fails badArgsKnownToolEnv emptyArgsEnv
     "show me coffee" "\x7b"
     ⟨"find_product", some "\x7b"⟩ ⟨"get_products", some ""⟩
     ⟨"get_products", some ""⟩
     rfl rfl (by decide) rfl rfl rfl rfl⟩
